import Mathlib

/-!
Verification of the remote host agent (src/index.js, CommonJS agent) and of
the Windows input bridge (src/scripts/windowsInputBridge.ps1).

The embedding models JavaScript numbers as rationals (all values reachable
here are finite; the arithmetic performed — max, min, comparison, floor of a
division — is exact on the inputs the claims quantify over), timestamps from
Date.now() as rationals, and the module-level mutable variables of the agent
as one explicit state record threaded through the event handlers.
-/

/-- Model of the JavaScript built-in String.prototype.trim used by the event
handlers: strip leading and trailing whitespace.  Defined over the character
list of the string so that concrete instances reduce in the kernel. -/
def jsTrim (s : String) : String :=
  String.mk (((s.data.dropWhile Char.isWhitespace).reverse.dropWhile Char.isWhitespace).reverse)

namespace RemoteAgent

/-- Startup configuration of the agent (resolved once, immutable thereafter):
hostId, REMOTE_PERF_MODE, the frame-rate profile and the activity windows. -/
structure AgentConfig where
  hostId : String
  performanceMode : String
  baseFps : ℚ
  minFps : ℚ
  inputFps : ℚ
  typingFps : ℚ
  inputWindowMs : ℚ
  typingWindowMs : ℚ
  slowCaptureThresholdMs : ℚ
deriving DecidableEq

/-- The module-level mutable state of src/index.js: activeSessionId,
captureLoopRunning, captureTimer (modelled as the pending delay, if any),
captureInProgress, and the activity timestamps.  captureStartedAt is the
local constant of the sendFrame closure; since captures never overlap there
is at most one in flight, so a single field carries it from the start of a
capture to its finally block. -/
structure AgentState where
  activeSessionId : String
  captureLoopRunning : Bool
  captureTimer : Option ℤ
  captureInProgress : Bool
  captureStartedAt : ℚ
  lastInputAt : ℚ
  lastTypingAt : ℚ
  slowCaptureBackoffUntil : ℚ
deriving DecidableEq

/-- Initial values of the module-level variables. -/
def initialState : AgentState :=
  { activeSessionId := ""
    captureLoopRunning := false
    captureTimer := none
    captureInProgress := false
    captureStartedAt := 0
    lastInputAt := 0
    lastTypingAt := 0
    slowCaptureBackoffUntil := 0 }

/-- MAX_FRAME_BASE64_LENGTH = 800_000 (src/index.js line 347). -/
def MAX_FRAME_BASE64_LENGTH : ℕ := 800000

/-- normalizedBaseFps = Math.max(1, baseFps). -/
def normalizedBaseFps (cfg : AgentConfig) : ℚ := max 1 cfg.baseFps

/-- normalizedMinFps = Math.max(1, Math.min(minFps, normalizedBaseFps)). -/
def normalizedMinFps (cfg : AgentConfig) : ℚ :=
  max 1 (min cfg.minFps (normalizedBaseFps cfg))

/-- normalizedInputFps = Math.max(normalizedMinFps, Math.min(inputFps, normalizedBaseFps)). -/
def normalizedInputFps (cfg : AgentConfig) : ℚ :=
  max (normalizedMinFps cfg) (min cfg.inputFps (normalizedBaseFps cfg))

/-- normalizedTypingFps = Math.max(1, Math.min(typingFps, normalizedInputFps)). -/
def normalizedTypingFps (cfg : AgentConfig) : ℚ :=
  max 1 (min cfg.typingFps (normalizedInputFps cfg))

/-- getEffectiveCaptureFps (src/index.js lines 494-521).  Date.now() is the
explicit parameter now; the activity timestamps are read from the state. -/
def getEffectiveCaptureFps (cfg : AgentConfig) (s : AgentState) (now : ℚ) : ℚ :=
  if cfg.performanceMode ≠ "auto" then normalizedBaseFps cfg
  else if now - s.lastTypingAt ≤ cfg.typingWindowMs then normalizedTypingFps cfg
  else if now - s.lastInputAt ≤ cfg.inputWindowMs then normalizedInputFps cfg
  else if now ≤ s.slowCaptureBackoffUntil then normalizedInputFps cfg
  else normalizedBaseFps cfg

/-- The JavaScript value passed as the delayMs argument of scheduleNextCapture:
null (the default parameter value), a finite number, or NaN.  No call site of
the source produces NaN or Infinity, but the constructor keeps the
Number.isFinite test of the source meaningful. -/
inductive JsDelay where
  | jsNull
  | jsNum (q : ℚ)
  | jsNaN
deriving DecidableEq

/-- ToNumber of the delayMs argument: Number(null) = 0 in JavaScript; a
finite number maps to itself. (Only used when the isFinite test passes, so
the NaN case is arbitrary.) -/
def JsDelay.toNumber : JsDelay → ℚ
  | jsNull => 0
  | jsNum q => q
  | jsNaN => 0

/-- Number.isFinite(Number(delayMs)): true for null (Number(null) = 0) and
for every finite number, false for NaN. -/
def JsDelay.toNumberIsFinite : JsDelay → Bool
  | jsNull => true
  | jsNum _ => true
  | jsNaN => false

/-- computedDelay = Math.max(80, Math.floor(1000 / Math.max(1, effectiveFps)))
(src/index.js line 531). -/
def computedCaptureDelay (effectiveFps : ℚ) : ℤ :=
  max 80 ⌊(1000 : ℚ) / max 1 effectiveFps⌋

/-- scheduleNextCapture (src/index.js lines 523-540).  Clearing the old timer
and arming a new one is modelled as overwriting the captureTimer field with
the chosen delay.  Note that the source guards the explicit-delay branch with
Number.isFinite(Number(delayMs)), which is true for the default value null
because Number(null) = 0; hence a call without an argument arms the timer
with max(0, floor(0)) = 0 and computedDelay is unreachable from the call
sites of the source. -/
def scheduleNextCapture (cfg : AgentConfig) (now : ℚ) (delayMs : JsDelay)
    (s : AgentState) : AgentState :=
  if s.captureLoopRunning = false ∨ s.activeSessionId = "" then s
  else
    let effectiveFps := getEffectiveCaptureFps cfg s now
    let computedDelay := computedCaptureDelay effectiveFps
    let nextDelay : ℤ :=
      if delayMs.toNumberIsFinite then max 0 ⌊delayMs.toNumber⌋ else computedDelay
    { s with captureTimer := some nextDelay }

/-- stopCaptureLoop (src/index.js lines 631-636): clear the running flag and
cancel a pending timer if there is one. -/
def stopCaptureLoop (s : AgentState) : AgentState :=
  { s with captureLoopRunning := false, captureTimer := none }

/-- startCaptureLoop (src/index.js lines 678-681): set the running flag and
schedule an immediate (zero-delay) first tick. -/
def startCaptureLoop (cfg : AgentConfig) (now : ℚ) (s : AgentState) : AgentState :=
  scheduleNextCapture cfg now (JsDelay.jsNum 0) { s with captureLoopRunning := true }

/-- The remote-session-started handler (src/index.js lines 700-707).
sessionId and hostId arrive as strings (the String(x || "") coercion of the
source); both are trimmed before use. -/
def handleSessionStarted (cfg : AgentConfig) (now : ℚ)
    (sessionId sessionHostId : String) (s : AgentState) : AgentState :=
  let normalizedSessionId := jsTrim sessionId
  let normalizedSessionHostId := jsTrim sessionHostId
  if normalizedSessionId = "" ∨ normalizedSessionHostId ≠ cfg.hostId then s
  else startCaptureLoop cfg now { s with activeSessionId := normalizedSessionId }

/-- The remote-session-ended handler (src/index.js lines 709-715). -/
def handleSessionEnded (sessionId : String) (s : AgentState) : AgentState :=
  let normalizedSessionId := jsTrim sessionId
  if normalizedSessionId = "" ∨ normalizedSessionId ≠ s.activeSessionId then s
  else stopCaptureLoop { s with activeSessionId := "" }

/-- The remote-input handler (src/index.js lines 717-737).  hasEvent models
the truthiness of the event payload and eventType its type field; the write
to the input bridge is an external effect with no bearing on this state. -/
def handleRemoteInput (sessionId : String) (hasEvent : Bool) (eventType : String)
    (now : ℚ) (s : AgentState) : AgentState :=
  let normalizedSessionId := jsTrim sessionId
  if normalizedSessionId = "" ∨ hasEvent = false then s
  else if normalizedSessionId ≠ s.activeSessionId then s
  else
    let s1 := { s with lastInputAt := now }
    if eventType = "key-down" ∨ eventType = "key-up" then
      { s1 with lastTypingAt := now }
    else s1

/-- The disconnect handler (src/index.js lines 745-749). -/
def handleDisconnect (s : AgentState) : AgentState :=
  stopCaptureLoop { s with activeSessionId := "" }

/-- Outcome of one awaited screenshot call: a base64 string on success, or a
thrown error. -/
inductive CaptureOutcome where
  | success (image : String)
  | failure
deriving DecidableEq

/-- A remote-host-frame emission handed to the transport. -/
structure FrameEmit where
  sessionId : String
  image : String
  timestamp : ℚ
deriving DecidableEq

/-- The synchronous prefix of sendFrame (src/index.js lines 643-651), up to
and including the decision to invoke the screenshot primitive.  The Bool of
the result records whether a capture was started; on that path
captureInProgress is set and captureStartedAt recorded before the capture. -/
def sendFrameStart (cfg : AgentConfig) (now : ℚ) (s : AgentState) :
    AgentState × Bool :=
  if s.activeSessionId = "" ∨ s.captureLoopRunning = false then (s, false)
  else if s.captureInProgress then (scheduleNextCapture cfg now (JsDelay.jsNum 60) s, false)
  else ({ s with captureInProgress := true, captureStartedAt := now }, true)

/-- The continuation of sendFrame after the awaited capture returns
(src/index.js lines 652-676): the size guard and emit of the try block, the
catch, and the finally block (slow-capture backoff, clearing
captureInProgress, scheduling the next tick).  now is the completion time;
the emitted frames are returned alongside the new state. -/
def sendFrameFinish (cfg : AgentConfig) (outcome : CaptureOutcome) (now : ℚ)
    (s : AgentState) : AgentState × List FrameEmit :=
  let emits : List FrameEmit :=
    match outcome with
    | CaptureOutcome.success image =>
        if image = "" ∨ MAX_FRAME_BASE64_LENGTH < image.length then []
        else [{ sessionId := s.activeSessionId, image := image, timestamp := now }]
    | CaptureOutcome.failure => []
  let captureDurationMs := now - s.captureStartedAt
  let s1 :=
    if cfg.performanceMode = "auto" ∧ cfg.slowCaptureThresholdMs ≤ captureDurationMs
    then { s with slowCaptureBackoffUntil := now + 1600 }
    else s
  let s2 := { s1 with captureInProgress := false }
  (scheduleNextCapture cfg now JsDelay.jsNull s2, emits)

/-- One inbound event of the agent: the four transport events plus the two
halves of a capture tick (the timer firing, and the awaited capture
completing). -/
inductive AgentEvent where
  | sessionStarted (sessionId hostId : String) (now : ℚ)
  | sessionEnded (sessionId : String)
  | remoteInput (sessionId : String) (hasEvent : Bool) (eventType : String) (now : ℚ)
  | disconnect
  | tickStart (now : ℚ)
  | tickFinish (outcome : CaptureOutcome) (now : ℚ)

/-- Dispatch of one event to its handler. -/
def step (cfg : AgentConfig) (s : AgentState) : AgentEvent → AgentState
  | AgentEvent.sessionStarted sid hid now => handleSessionStarted cfg now sid hid s
  | AgentEvent.sessionEnded sid => handleSessionEnded sid s
  | AgentEvent.remoteInput sid he ty now => handleRemoteInput sid he ty now s
  | AgentEvent.disconnect => handleDisconnect s
  | AgentEvent.tickStart now => (sendFrameStart cfg now s).1
  | AgentEvent.tickFinish o now => (sendFrameFinish cfg o now s).1

/-- The state reached from the initial state after a sequence of events. -/
def run (cfg : AgentConfig) (events : List AgentEvent) : AgentState :=
  events.foldl (step cfg) initialState

/-- The effective-rate priority cascade as worded by the spec (section 4.2):
typing rate inside the typing window, else input rate inside the input
window, else input rate inside the backoff window, else the base rate, all
rates clamped.  Stated independently of getEffectiveCaptureFps so the code
can be compared against it. -/
def effectiveFpsCascadeSpec (cfg : AgentConfig) (s : AgentState) (now : ℚ) : ℚ :=
  if now - s.lastTypingAt ≤ cfg.typingWindowMs then normalizedTypingFps cfg
  else if now - s.lastInputAt ≤ cfg.inputWindowMs then normalizedInputFps cfg
  else if now ≤ s.slowCaptureBackoffUntil then normalizedInputFps cfg
  else normalizedBaseFps cfg

end RemoteAgent

namespace InputBridge

/-- Clamp-01 (src/scripts/windowsInputBridge.ps1 lines 30-35). -/
def clamp01 (v : ℚ) : ℚ := if v < 0 then 0 else if 1 < v then 1 else v

/-- Half-to-even (banker) rounding, the behaviour of .NET Math.Round(Double)
used by the bridge. -/
def roundHalfEven (q : ℚ) : ℤ :=
  if q - ⌊q⌋ < 1 / 2 then ⌊q⌋
  else if 1 / 2 < q - ⌊q⌋ then ⌊q⌋ + 1
  else if ⌊q⌋ % 2 = 0 then ⌊q⌋ else ⌊q⌋ + 1

/-- Display bounds as consumed by the bridge. -/
structure DisplayBounds where
  left : ℚ
  top : ℚ
  width : ℚ
  height : ℚ
deriving DecidableEq

/-- Get-ScreenCoordinates (src/scripts/windowsInputBridge.ps1 lines 97-121)
with known display bounds: x = Round(left + clamp01(xNorm) * Max(1, width - 1))
and likewise for y. -/
def getScreenCoordinates (b : DisplayBounds) (xNorm yNorm : ℚ) : ℤ × ℤ :=
  (roundHalfEven (b.left + clamp01 xNorm * max 1 (b.width - 1)),
   roundHalfEven (b.top + clamp01 yNorm * max 1 (b.height - 1)))

end InputBridge

namespace RemoteAgent

/-- A configuration used by the concrete witness instances: the default
profile of the source (fps 6, min 3, input 3, typing 2, windows 1200 and
2200 ms, slow-capture threshold 450 ms, auto mode). -/
def cfgW : AgentConfig :=
  { hostId := "host-a"
    performanceMode := "auto"
    baseFps := 6
    minFps := 3
    inputFps := 3
    typingFps := 2
    inputWindowMs := 1200
    typingWindowMs := 2200
    slowCaptureThresholdMs := 450 }

/-- Witness state: an active session with the loop running and no capture in
flight. -/
def sActive : AgentState :=
  { initialState with activeSessionId := "s1", captureLoopRunning := true }

/-- Witness state: an active session with a capture currently in flight. -/
def sBusy : AgentState :=
  { sActive with captureInProgress := true }

/-- Witness state: a capture in flight that started at time 0, with a
backoff window extending to time 5000. -/
def sFin : AgentState :=
  { sBusy with captureStartedAt := 0, slowCaptureBackoffUntil := 5000 }

/-- Witness state: an agent already bound to session old with the loop
running. -/
def sActiveOld : AgentState :=
  { initialState with
    activeSessionId := "old"
    captureLoopRunning := true
    captureTimer := some 0 }

/-- Witness state: an active session named abc. -/
def sEnd8 : AgentState :=
  { initialState with activeSessionId := "abc", captureLoopRunning := true }

/-- scheduleNextCapture can only rearm the timer; every other field is kept. -/
theorem scheduleNextCapture_activeSessionId (cfg : AgentConfig) (now : ℚ)
    (d : JsDelay) (s : AgentState) :
    (scheduleNextCapture cfg now d s).activeSessionId = s.activeSessionId := by
  unfold scheduleNextCapture; split <;> rfl

theorem scheduleNextCapture_captureLoopRunning (cfg : AgentConfig) (now : ℚ)
    (d : JsDelay) (s : AgentState) :
    (scheduleNextCapture cfg now d s).captureLoopRunning = s.captureLoopRunning := by
  unfold scheduleNextCapture; split <;> rfl

theorem scheduleNextCapture_captureInProgress (cfg : AgentConfig) (now : ℚ)
    (d : JsDelay) (s : AgentState) :
    (scheduleNextCapture cfg now d s).captureInProgress = s.captureInProgress := by
  unfold scheduleNextCapture; split <;> rfl

theorem scheduleNextCapture_slowCaptureBackoffUntil (cfg : AgentConfig) (now : ℚ)
    (d : JsDelay) (s : AgentState) :
    (scheduleNextCapture cfg now d s).slowCaptureBackoffUntil = s.slowCaptureBackoffUntil := by
  unfold scheduleNextCapture; split <;> rfl

theorem scheduleNextCapture_lastInputAt (cfg : AgentConfig) (now : ℚ)
    (d : JsDelay) (s : AgentState) :
    (scheduleNextCapture cfg now d s).lastInputAt = s.lastInputAt := by
  unfold scheduleNextCapture; split <;> rfl

theorem scheduleNextCapture_lastTypingAt (cfg : AgentConfig) (now : ℚ)
    (d : JsDelay) (s : AgentState) :
    (scheduleNextCapture cfg now d s).lastTypingAt = s.lastTypingAt := by
  unfold scheduleNextCapture; split <;> rfl

/-- When the loop is running with an active session, scheduleNextCapture with
an explicit finite numeric delay arms the timer with max(0, floor(delay)). -/
theorem scheduleNextCapture_jsNum (cfg : AgentConfig) (now : ℚ) (q : ℚ)
    (s : AgentState) (hrun : s.captureLoopRunning = true)
    (hact : s.activeSessionId ≠ "") :
    scheduleNextCapture cfg now (JsDelay.jsNum q) s
      = { s with captureTimer := some (max 0 ⌊q⌋) } := by
  have hcond : ¬(s.captureLoopRunning = false ∨ s.activeSessionId = "") := by
    simp [hrun, hact]
  unfold scheduleNextCapture
  rw [if_neg hcond]
  rfl

/-- The first projection of sendFrameStart keeps the session and loop fields. -/
theorem sendFrameStart_fst_activeSessionId (cfg : AgentConfig) (now : ℚ)
    (s : AgentState) :
    (sendFrameStart cfg now s).1.activeSessionId = s.activeSessionId := by
  unfold sendFrameStart
  split
  · rfl
  · split
    · exact scheduleNextCapture_activeSessionId cfg now (JsDelay.jsNum 60) s
    · rfl

theorem sendFrameStart_fst_captureLoopRunning (cfg : AgentConfig) (now : ℚ)
    (s : AgentState) :
    (sendFrameStart cfg now s).1.captureLoopRunning = s.captureLoopRunning := by
  unfold sendFrameStart
  split
  · rfl
  · split
    · exact scheduleNextCapture_captureLoopRunning cfg now (JsDelay.jsNum 60) s
    · rfl

/-- The first projection of sendFrameFinish keeps the session field. -/
theorem sendFrameFinish_fst_activeSessionId (cfg : AgentConfig)
    (o : CaptureOutcome) (now : ℚ) (s : AgentState) :
    (sendFrameFinish cfg o now s).1.activeSessionId = s.activeSessionId := by
  unfold sendFrameFinish
  dsimp only
  rw [scheduleNextCapture_activeSessionId]
  split <;> rfl

theorem sendFrameFinish_fst_captureLoopRunning (cfg : AgentConfig)
    (o : CaptureOutcome) (now : ℚ) (s : AgentState) :
    (sendFrameFinish cfg o now s).1.captureLoopRunning = s.captureLoopRunning := by
  unfold sendFrameFinish
  dsimp only
  rw [scheduleNextCapture_captureLoopRunning]
  split <;> rfl

/-- The finally block clears captureInProgress on every path. -/
theorem sendFrameFinish_fst_captureInProgress (cfg : AgentConfig)
    (o : CaptureOutcome) (now : ℚ) (s : AgentState) :
    (sendFrameFinish cfg o now s).1.captureInProgress = false := by
  unfold sendFrameFinish
  dsimp only
  rw [scheduleNextCapture_captureInProgress]

/-- When the loop is running with an active session, scheduleNextCapture
always leaves a timer armed. -/
theorem scheduleNextCapture_isSome (cfg : AgentConfig) (now : ℚ) (d : JsDelay)
    (s : AgentState) (hrun : s.captureLoopRunning = true)
    (hact : s.activeSessionId ≠ "") :
    ((scheduleNextCapture cfg now d s).captureTimer).isSome = true := by
  unfold scheduleNextCapture
  rw [if_neg (by simp [hrun, hact])]
  rfl

/-- The clamped rates: every clamped rate is at least 1. -/
theorem one_le_normalizedBaseFps (cfg : AgentConfig) : 1 ≤ normalizedBaseFps cfg :=
  le_max_left 1 _

theorem one_le_normalizedMinFps (cfg : AgentConfig) : 1 ≤ normalizedMinFps cfg :=
  le_max_left 1 _

theorem normalizedMinFps_le_base (cfg : AgentConfig) :
    normalizedMinFps cfg ≤ normalizedBaseFps cfg :=
  max_le (one_le_normalizedBaseFps cfg) (min_le_right _ _)

theorem normalizedMinFps_le_input (cfg : AgentConfig) :
    normalizedMinFps cfg ≤ normalizedInputFps cfg :=
  le_max_left _ _

theorem normalizedInputFps_le_base (cfg : AgentConfig) :
    normalizedInputFps cfg ≤ normalizedBaseFps cfg :=
  max_le (normalizedMinFps_le_base cfg) (min_le_right _ _)

theorem one_le_normalizedInputFps (cfg : AgentConfig) :
    1 ≤ normalizedInputFps cfg :=
  (one_le_normalizedMinFps cfg).trans (normalizedMinFps_le_input cfg)

theorem one_le_normalizedTypingFps (cfg : AgentConfig) :
    1 ≤ normalizedTypingFps cfg :=
  le_max_left 1 _

theorem normalizedTypingFps_le_input (cfg : AgentConfig) :
    normalizedTypingFps cfg ≤ normalizedInputFps cfg :=
  max_le (one_le_normalizedInputFps cfg) (min_le_right _ _)

/-- The lifecycle invariant tying the scheduler to the active session. -/
def sessionInvariant (s : AgentState) : Prop :=
  s.captureLoopRunning = true ↔ s.activeSessionId ≠ ""

theorem step_preserves_sessionInvariant (cfg : AgentConfig) (s : AgentState)
    (e : AgentEvent) (h : sessionInvariant s) : sessionInvariant (step cfg s e) := by
  cases e with
  | sessionStarted sid hid now =>
    simp only [step, handleSessionStarted]
    split
    · exact h
    · rename_i hcond
      push_neg at hcond
      unfold sessionInvariant startCaptureLoop
      rw [scheduleNextCapture_captureLoopRunning, scheduleNextCapture_activeSessionId]
      simpa using hcond.1
  | sessionEnded sid =>
    simp only [step, handleSessionEnded]
    split
    · exact h
    · simp [sessionInvariant, stopCaptureLoop]
  | remoteInput sid he ty now =>
    simp only [step, handleRemoteInput]
    split
    · exact h
    · split
      · exact h
      · split <;> simpa [sessionInvariant] using h
  | disconnect =>
    simp [step, handleDisconnect, stopCaptureLoop, sessionInvariant]
  | tickStart now =>
    unfold step sessionInvariant
    rw [sendFrameStart_fst_captureLoopRunning, sendFrameStart_fst_activeSessionId]
    exact h
  | tickFinish o now =>
    unfold step sessionInvariant
    rw [sendFrameFinish_fst_captureLoopRunning, sendFrameFinish_fst_activeSessionId]
    exact h

theorem foldl_preserves_sessionInvariant (cfg : AgentConfig) :
    ∀ (events : List AgentEvent) (s : AgentState),
      sessionInvariant s → sessionInvariant (events.foldl (step cfg) s)
  | [], _, h => h
  | e :: es, s, h =>
    foldl_preserves_sessionInvariant cfg es (step cfg s e)
      (step_preserves_sessionInvariant cfg s e h)

/-- Claim C1: for every sequence of transport and tick events handled from
the initial state, the running flag of the capture scheduler is true if and
only if activeSessionId is a non-empty string. -/
theorem running_iff_activeSession (cfg : AgentConfig) (events : List AgentEvent) :
    (run cfg events).captureLoopRunning = true ↔ (run cfg events).activeSessionId ≠ "" :=
  foldl_preserves_sessionInvariant cfg events initialState
    (by unfold sessionInvariant; decide)

/-- Claim C2: a tick that finds captureInProgress set performs no capture and
merely rearms the timer with the fixed 60 ms delay; a capture is only ever
started from a state where captureInProgress is false, and is flagged before
the capture runs; the finally block clears the flag on every completion
path. -/
theorem tick_no_overlap (cfg : AgentConfig) (now : ℚ) (s : AgentState) :
    ((sendFrameStart cfg now s).2 = true →
        s.captureInProgress = false
        ∧ (sendFrameStart cfg now s).1.captureInProgress = true)
    ∧ (s.captureInProgress = true →
        (sendFrameStart cfg now s).2 = false
        ∧ (s.activeSessionId ≠ "" → s.captureLoopRunning = true →
            (sendFrameStart cfg now s).1 = { s with captureTimer := some 60 }))
    ∧ (∀ (outcome : CaptureOutcome) (nowEnd : ℚ),
        (sendFrameFinish cfg outcome nowEnd s).1.captureInProgress = false) := by
  refine ⟨?_, ?_, fun o nowEnd => sendFrameFinish_fst_captureInProgress cfg o nowEnd s⟩
  · intro hstarted
    by_cases hg : s.activeSessionId = "" ∨ s.captureLoopRunning = false
    · unfold sendFrameStart at hstarted
      rw [if_pos hg] at hstarted
      cases hstarted
    · by_cases hp : s.captureInProgress = true
      · unfold sendFrameStart at hstarted
        rw [if_neg hg, if_pos hp] at hstarted
        cases hstarted
      · refine ⟨by simpa using hp, ?_⟩
        unfold sendFrameStart
        rw [if_neg hg, if_neg hp]
  · intro hp
    constructor
    · by_cases hg : s.activeSessionId = "" ∨ s.captureLoopRunning = false
      · unfold sendFrameStart
        rw [if_pos hg]
      · unfold sendFrameStart
        rw [if_neg hg, if_pos hp]
    · intro hact hrun
      have hg : ¬(s.activeSessionId = "" ∨ s.captureLoopRunning = false) := by
        simp [hact, hrun]
      unfold sendFrameStart
      rw [if_neg hg, if_pos hp]
      have h60 : (max 0 ⌊(60 : ℚ)⌋ : ℤ) = 60 := by norm_num
      calc (scheduleNextCapture cfg now (JsDelay.jsNum 60) s, false).1
          = { s with captureTimer := some (max 0 ⌊(60 : ℚ)⌋) } :=
            scheduleNextCapture_jsNum cfg now 60 s hrun hact
        _ = { s with captureTimer := some 60 } := by rw [h60]

/-- Witness for C2 at a concrete busy state. -/
theorem tick_no_overlap_witness :
    sBusy.captureInProgress = true
    ∧ (sendFrameStart cfgW 0 sBusy).2 = false
    ∧ (sendFrameStart cfgW 0 sBusy).1 = { sBusy with captureTimer := some 60 } :=
  ⟨rfl, ((tick_no_overlap cfgW 0 sBusy).2.1 rfl).1,
   ((tick_no_overlap cfgW 0 sBusy).2.1 rfl).2 (by decide) rfl⟩

/-- Claim C7: the disconnect handler forces the idle state from any state:
the session id is cleared, the loop stops and any pending timer is
cancelled. -/
theorem disconnect_forces_idle (s : AgentState) :
    (handleDisconnect s).activeSessionId = ""
    ∧ (handleDisconnect s).captureLoopRunning = false
    ∧ (handleDisconnect s).captureTimer = none :=
  ⟨rfl, rfl, rfl⟩

/-- Claim C8: a session-ended event whose trimmed session id is empty or
differs from the active session leaves the whole state unchanged. -/
theorem sessionEnded_mismatch_noop (s : AgentState) (sessionId : String)
    (h : jsTrim sessionId = "" ∨ jsTrim sessionId ≠ s.activeSessionId) :
    handleSessionEnded sessionId s = s := by
  unfold handleSessionEnded
  exact if_pos h

/-- Witness for C8: ending session other while abc is active is a no-op. -/
theorem sessionEnded_mismatch_noop_witness :
    (jsTrim "other" = "" ∨ jsTrim "other" ≠ sEnd8.activeSessionId)
    ∧ handleSessionEnded "other" sEnd8 = sEnd8 :=
  ⟨by decide, sessionEnded_mismatch_noop sEnd8 "other" (by decide)⟩

/-- Claim C10: a session-started event with a non-empty trimmed id and a
matching host id is accepted from any state, including while another session
is active: the active id is overwritten, the loop (re)started with an
immediate tick, and nothing else changes — in particular no session-ended
processing happens for the displaced session. -/
theorem sessionStarted_overrides_active (cfg : AgentConfig) (now : ℚ)
    (s : AgentState) (sessionId sessionHostId : String)
    (h1 : jsTrim sessionId ≠ "") (h2 : jsTrim sessionHostId = cfg.hostId) :
    handleSessionStarted cfg now sessionId sessionHostId s
      = { s with
          activeSessionId := jsTrim sessionId
          captureLoopRunning := true
          captureTimer := some 0 } := by
  unfold handleSessionStarted startCaptureLoop
  rw [if_neg (by simp [h1, h2])]
  have h0 : (max 0 ⌊(0 : ℚ)⌋ : ℤ) = 0 := by norm_num
  calc scheduleNextCapture cfg now (JsDelay.jsNum 0)
          { s with activeSessionId := jsTrim sessionId, captureLoopRunning := true }
      = { s with
          activeSessionId := jsTrim sessionId
          captureLoopRunning := true
          captureTimer := some (max 0 ⌊(0 : ℚ)⌋) } :=
        scheduleNextCapture_jsNum cfg now 0 _ rfl h1
    _ = { s with
          activeSessionId := jsTrim sessionId
          captureLoopRunning := true
          captureTimer := some 0 } := by rw [h0]

/-- Witness for C10: session new displaces the already-active session old. -/
theorem sessionStarted_overrides_active_witness :
    jsTrim "new" ≠ "" ∧ jsTrim "host-a" = cfgW.hostId
    ∧ sActiveOld.activeSessionId = "old"
    ∧ handleSessionStarted cfgW 0 "new" "host-a" sActiveOld
        = { sActiveOld with
            activeSessionId := jsTrim "new"
            captureLoopRunning := true
            captureTimer := some 0 } :=
  ⟨by decide, by decide, rfl,
   sessionStarted_overrides_active cfgW 0 sActiveOld "new" "host-a"
     (by decide) (by decide)⟩

/-- Claim C3: in auto mode the effective capture rate is exactly the
priority cascade of the spec; the clamped rates satisfy 1 ≤ min ≤ input ≤
base and 1 ≤ typing ≤ input; with a typing window of 2200 ms and a key event
at time 0 the rate at 1000 ms is the clamped typing rate, and at 2300 ms it
is the clamped input rate or the clamped base rate; in any non-auto mode the
rate is always the clamped base rate. -/
theorem effectiveFps_cascade (cfg : AgentConfig) (s : AgentState) (now : ℚ) :
    (cfg.performanceMode = "auto" →
        getEffectiveCaptureFps cfg s now = effectiveFpsCascadeSpec cfg s now)
    ∧ (cfg.performanceMode ≠ "auto" →
        getEffectiveCaptureFps cfg s now = normalizedBaseFps cfg)
    ∧ (1 ≤ normalizedBaseFps cfg ∧ 1 ≤ normalizedMinFps cfg
        ∧ normalizedMinFps cfg ≤ normalizedInputFps cfg
        ∧ normalizedInputFps cfg ≤ normalizedBaseFps cfg
        ∧ 1 ≤ normalizedTypingFps cfg
        ∧ normalizedTypingFps cfg ≤ normalizedInputFps cfg)
    ∧ (cfg.performanceMode = "auto" → cfg.typingWindowMs = 2200 →
        s.lastTypingAt = 0 → s.lastInputAt = 0 →
        getEffectiveCaptureFps cfg s 1000 = normalizedTypingFps cfg
        ∧ (getEffectiveCaptureFps cfg s 2300 = normalizedInputFps cfg
            ∨ getEffectiveCaptureFps cfg s 2300 = normalizedBaseFps cfg)) := by
  refine ⟨?_, ?_,
    ⟨one_le_normalizedBaseFps cfg, one_le_normalizedMinFps cfg,
     normalizedMinFps_le_input cfg, normalizedInputFps_le_base cfg,
     one_le_normalizedTypingFps cfg, normalizedTypingFps_le_input cfg⟩, ?_⟩
  · intro hmode
    unfold getEffectiveCaptureFps effectiveFpsCascadeSpec
    rw [if_neg (by simp [hmode])]
  · intro hmode
    unfold getEffectiveCaptureFps
    rw [if_pos hmode]
  · intro hmode hwin ht hi
    constructor
    · unfold getEffectiveCaptureFps
      rw [if_neg (by simp [hmode]), ht, hwin, if_pos (by norm_num)]
    · unfold getEffectiveCaptureFps
      rw [if_neg (by simp [hmode]), ht, hwin, if_neg (by norm_num), hi]
      by_cases hc1 : (2300 : ℚ) - 0 ≤ cfg.inputWindowMs
      · rw [if_pos hc1]
        exact Or.inl rfl
      · rw [if_neg hc1]
        by_cases hc2 : (2300 : ℚ) ≤ s.slowCaptureBackoffUntil
        · rw [if_pos hc2]
          exact Or.inl rfl
        · rw [if_neg hc2]
          exact Or.inr rfl

/-- Witness for C3 at the default configuration and a key event at time 0. -/
theorem effectiveFps_cascade_witness :
    cfgW.performanceMode = "auto" ∧ cfgW.typingWindowMs = 2200
    ∧ initialState.lastTypingAt = 0 ∧ initialState.lastInputAt = 0
    ∧ getEffectiveCaptureFps cfgW initialState 1000 = normalizedTypingFps cfgW
    ∧ (getEffectiveCaptureFps cfgW initialState 2300 = normalizedInputFps cfgW
        ∨ getEffectiveCaptureFps cfgW initialState 2300 = normalizedBaseFps cfgW) :=
  ⟨rfl, rfl, rfl, rfl,
   ((effectiveFps_cascade cfgW initialState 0).2.2.2 rfl rfl rfl rfl).1,
   ((effectiveFps_cascade cfgW initialState 0).2.2.2 rfl rfl rfl rfl).2⟩

/-- Claim C4: in auto mode, any completed capture attempt (success or
failure) whose measured duration is at least the slow-capture threshold sets
slowCaptureBackoffUntil to the completion time plus 1600 ms, and any
effective-rate computation at a time inside the backoff window yields at
most the clamped input rate. -/
theorem slowCapture_backoff (cfg : AgentConfig) (s : AgentState)
    (outcome : CaptureOutcome) (now nowQ : ℚ) :
    (cfg.performanceMode = "auto" →
        cfg.slowCaptureThresholdMs ≤ now - s.captureStartedAt →
        (sendFrameFinish cfg outcome now s).1.slowCaptureBackoffUntil = now + 1600)
    ∧ (cfg.performanceMode = "auto" → nowQ ≤ s.slowCaptureBackoffUntil →
        getEffectiveCaptureFps cfg s nowQ ≤ normalizedInputFps cfg) := by
  constructor
  · intro hmode hdur
    unfold sendFrameFinish
    dsimp only
    rw [scheduleNextCapture_slowCaptureBackoffUntil]
    rw [if_pos ⟨hmode, hdur⟩]
  · intro hmode hback
    unfold getEffectiveCaptureFps
    rw [if_neg (by simp [hmode])]
    by_cases h1 : nowQ - s.lastTypingAt ≤ cfg.typingWindowMs
    · rw [if_pos h1]
      exact normalizedTypingFps_le_input cfg
    · rw [if_neg h1]
      by_cases h2 : nowQ - s.lastInputAt ≤ cfg.inputWindowMs
      · rw [if_pos h2]
      · rw [if_neg h2, if_pos hback]

/-- Witness for C4: a 1000 ms capture against a 450 ms threshold, and a tick
inside the backoff window. -/
theorem slowCapture_backoff_witness :
    cfgW.performanceMode = "auto"
    ∧ cfgW.slowCaptureThresholdMs ≤ 1000 - sFin.captureStartedAt
    ∧ (sendFrameFinish cfgW CaptureOutcome.failure 1000 sFin).1.slowCaptureBackoffUntil
        = 1000 + 1600
    ∧ (3000 : ℚ) ≤ sFin.slowCaptureBackoffUntil
    ∧ getEffectiveCaptureFps cfgW sFin 3000 ≤ normalizedInputFps cfgW :=
  ⟨rfl, by norm_num [cfgW, sFin, sBusy, sActive, initialState],
   (slowCapture_backoff cfgW sFin CaptureOutcome.failure 1000 3000).1 rfl
     (by norm_num [cfgW, sFin, sBusy, sActive, initialState]),
   by norm_num [sFin, sBusy, sActive, initialState],
   (slowCapture_backoff cfgW sFin CaptureOutcome.failure 1000 3000).2 rfl
     (by norm_num [sFin, sBusy, sActive, initialState])⟩

/-- Claim C5 evaluated against the code: when scheduleNextCapture is called
with its default argument delayMs = null (the call the finally block makes
after every capture), Number(null) = 0 passes the Number.isFinite test, so
the timer is armed with max(0, floor(0)) = 0 ms; the rate-derived
computedDelay — here max(80, floor(1000/6)) = 166 ms, and at least 80 ms for
every rate — is computed but not used. -/
theorem scheduleDelay_null_is_zero :
    (scheduleNextCapture cfgW 100000 JsDelay.jsNull sActive).captureTimer = some 0
    ∧ computedCaptureDelay (getEffectiveCaptureFps cfgW sActive 100000) = 166
    ∧ (∀ f : ℚ, 80 ≤ computedCaptureDelay f) := by
  refine ⟨?_, ?_, fun f => le_max_left 80 _⟩
  · unfold scheduleNextCapture
    rw [if_neg (by decide)]
    simp [JsDelay.toNumberIsFinite, JsDelay.toNumber]
  · have heval : getEffectiveCaptureFps cfgW sActive 100000 = 6 := by
      norm_num [getEffectiveCaptureFps, cfgW, sActive, initialState, normalizedBaseFps]
    rw [heval]
    unfold computedCaptureDelay
    norm_num

/-- Claim C6: a capture whose base64 encoding is empty or longer than
MAX_FRAME_BASE64_LENGTH is never handed to the transport: no frame is
emitted, no retry happens (captureInProgress is cleared), and with the loop
still running the next tick is scheduled as usual. -/
theorem oversizedFrame_not_emitted (cfg : AgentConfig) (now : ℚ) (s : AgentState)
    (image : String)
    (h : image = "" ∨ MAX_FRAME_BASE64_LENGTH < image.length) :
    (sendFrameFinish cfg (CaptureOutcome.success image) now s).2 = []
    ∧ (sendFrameFinish cfg (CaptureOutcome.success image) now s).1.captureInProgress
        = false
    ∧ (s.captureLoopRunning = true → s.activeSessionId ≠ "" →
        ((sendFrameFinish cfg (CaptureOutcome.success image) now s).1.captureTimer).isSome
          = true) := by
  refine ⟨?_, sendFrameFinish_fst_captureInProgress cfg _ now s, ?_⟩
  · unfold sendFrameFinish
    dsimp only
    rw [if_pos h]
  · intro hrun hact
    unfold sendFrameFinish
    dsimp only
    apply scheduleNextCapture_isSome
    · split <;> simpa using hrun
    · split <;> simpa using hact

/-- Witness for C6: an empty encoded frame is dropped. -/
theorem oversizedFrame_not_emitted_witness :
    (("" : String) = "" ∨ MAX_FRAME_BASE64_LENGTH < ("" : String).length)
    ∧ (sendFrameFinish cfgW (CaptureOutcome.success "") 0 sActive).2 = [] :=
  ⟨Or.inl rfl, (oversizedFrame_not_emitted cfgW 0 sActive "" (Or.inl rfl)).1⟩

end RemoteAgent

/-- Claim C9, counterexample: on normalized coordinates (0.5, 0.5) with
display bounds left 100, top 50, width 1920, height 1080, the bridge does
not produce the pixel (1059, 589) claimed by the spec: the rounded
expressions are 100 + 0.5 * 1919 = 1059.5 and 50 + 0.5 * 1079 = 589.5,
which round (half-to-even) to 1060 and 590. -/
theorem bridge_roundTrip_counterexample :
    InputBridge.getScreenCoordinates
        { left := 100, top := 50, width := 1920, height := 1080 } (1/2) (1/2)
      ≠ (1059, 589) := by
  have hx : InputBridge.getScreenCoordinates
      { left := 100, top := 50, width := 1920, height := 1080 } (1/2) (1/2)
      = (1060, 590) := by
    unfold InputBridge.getScreenCoordinates InputBridge.clamp01 InputBridge.roundHalfEven
    norm_num
  rw [hx]
  decide

/-- Claim C9 as amended: the bridge maps normalized (0.5, 0.5) with display
bounds left 100, top 50, width 1920, height 1080 to the absolute pixel
(1060, 590). -/
theorem bridge_roundTrip_amended :
    InputBridge.getScreenCoordinates
        { left := 100, top := 50, width := 1920, height := 1080 } (1/2) (1/2)
      = (1060, 590) := by
  unfold InputBridge.getScreenCoordinates InputBridge.clamp01 InputBridge.roundHalfEven
  norm_num
